import Mathlib

/-!
Verification development for the openclaw-feishu channel adapter.

The TypeScript sources are shallowly embedded as executable Lean
definitions:

* `resolveLarkDomain` / `providerResolveLarkDomain` embed the two copies of
  the domain resolver (`src/lark-domain.ts` and the private copy in the
  provider file).
* `startFeishuProvider` embeds the connection-mode selection of the provider
  entry point (webhook HTTP server vs WebSocket client).
* `webhookRequestHandler` embeds the rejection branch of the webhook HTTP
  request handler (log, then a 500 response when headers are unsent).
* `handleIncomingMessage` embeds the inbound message handler: guard clauses,
  deduplication, group filtering, the "thinking…" placeholder timer and the
  reply delivery callbacks.  The surrounding asynchronous environment
  (whether the dispatcher delivers a payload, reports an error, or throws;
  how the placeholder timer interleaves with the reply, including the
  schedule where the reply arrives while the timer's `im.message.create` is
  still awaited; whether each platform REST call succeeds) is modelled by an
  explicit `DispatchEnv` schedule, and the platform calls the handler makes
  are recorded as a trace of `CallEvent`s.

The implementations of `dedup.js` (`isDuplicate`) and `group-filter.js`
(`shouldRespondInGroup`) are not part of the sources; they are modelled from
the specification, as marked on their doc comments.  The send layer
(`send.js`) is external I/O and is modelled by trace events whose success is
drawn from the schedule.
-/

/-! ## Lark domain resolution -/

/-- The SDK domain enum (`Lark.Domain`), restricted to the two values the
resolver can return. -/
inductive LarkDomain where
  | Feishu
  | Lark
deriving DecidableEq, Repr

/-- Embeds `resolveLarkDomain` from `src/lark-domain.ts`:
`domain === "lark" ? Lark.Domain.Lark : Lark.Domain.Feishu`.
An absent argument is `none`. -/
def resolveLarkDomain (domain : Option String) : LarkDomain :=
  if domain == some "lark" then LarkDomain.Lark else LarkDomain.Feishu

/-- Embeds the private copy of `resolveLarkDomain` in the provider file,
whose body is written identically to the shared one. -/
def providerResolveLarkDomain (domain : Option String) : LarkDomain :=
  if domain == some "lark" then LarkDomain.Lark else LarkDomain.Feishu

/-! ## Configuration model (types.ts) -/

/-- Embeds `FeishuGroupConfig` from the types file. -/
structure FeishuGroupConfig where
  requireMention : Option Bool
deriving DecidableEq, Repr

/-- Embeds the fields of `FeishuAccountConfig` that the provider and the
message handler consult (plus `groups`/`requireMention`, which the types file
documents).  A `groups` map entry associates a chat id with its
`FeishuGroupConfig`. -/
structure FeishuAccountConfig where
  thinkingThresholdMs : Option Int
  botNames : Option (List String)
  connectionMode : Option String
  domain : Option String
  webhookPort : Option Nat
  webhookPath : Option String
  groups : List (String × FeishuGroupConfig)
  requireMention : Option Bool
deriving DecidableEq, Repr

/-! ## Provider start (connection-mode selection) -/

/-- Observable outcome of `startFeishuProvider`: which connection mode was
selected, the resolved SDK domain and threshold, and which of the two
transports was actually started. -/
structure ProviderStart where
  connectionMode : String
  sdkDomain : LarkDomain
  thinkingThresholdMs : Int
  startsWebhookServer : Bool
  startsWsClient : Bool
deriving DecidableEq, Repr

/-- Embeds the control flow of `startFeishuProvider`: defaults are applied
(`thinkingThresholdMs ?? 2500`, `connectionMode ?? "websocket"`,
`domain ?? "feishu"`); when the resolved mode equals `"webhook"` the function
returns the webhook server before any WebSocket client is constructed, and
otherwise starts the WebSocket client with no HTTP server. -/
def startFeishuProvider (cfg : FeishuAccountConfig) : ProviderStart :=
  let thinkingThresholdMs := cfg.thinkingThresholdMs.getD 2500
  let connectionMode := cfg.connectionMode.getD "websocket"
  let domain := cfg.domain.getD "feishu"
  let sdkDomain := providerResolveLarkDomain (some domain)
  if connectionMode == "webhook" then
    { connectionMode := connectionMode, sdkDomain := sdkDomain,
      thinkingThresholdMs := thinkingThresholdMs,
      startsWebhookServer := true, startsWsClient := false }
  else
    { connectionMode := connectionMode, sdkDomain := sdkDomain,
      thinkingThresholdMs := thinkingThresholdMs,
      startsWebhookServer := false, startsWsClient := true }

/-! ## Webhook request handling -/

/-- Actions the webhook request callback can take on the HTTP response. -/
inductive ResponseAction where
  | logError (accountId message : String)
  | writeHead (status : Nat) (contentType : String)
  | endBody (body : String)
deriving DecidableEq, Repr

/-- Embeds the per-request callback installed by `startWebhookProvider`:
the adapted handler either resolves (`none`) or rejects with an error
message (`some err`).  On rejection the error is logged and, when the
response headers have not been sent yet, a 500 response with body
"Internal Server Error" is written; when they have, nothing more is
written. -/
def webhookRequestHandler (accountId : String) (handlerOutcome : Option String)
    (headersSent : Bool) : List ResponseAction :=
  match handlerOutcome with
  | none => []
  | some err =>
    ResponseAction.logError accountId err ::
      (if headersSent then []
       else [ResponseAction.writeHead 500 "text/plain",
             ResponseAction.endBody "Internal Server Error"])

/-! ## Deduplication and group filter (modelled collaborators) -/

/-- Modelled from the spec: the implementation of `isDuplicate` lives in
`dedup.js`, which is not among the sources; only its callsite is.  The spec
says "a message id is deduplicated at-most-once within the in-memory dedup
window"; the window is modelled as the list of already-seen ids, threaded
explicitly.  A missing message id is never a duplicate.  Returns the verdict
together with the updated window. -/
def isDuplicate : Option String → List String → Bool × List String
  | none, seen => (false, seen)
  | some id, seen =>
    if seen.contains id then (true, seen) else (false, id :: seen)

/-- A group-chat mention entry, abstracted to whether it targets the bot. -/
structure Mention where
  mentionsBot : Bool
deriving DecidableEq, Repr

/-- Whether `tag` is an initial segment of `cs`; on success, the remaining
characters after the tag. -/
def matchesTag : List Char → List Char → Option (List Char)
  | [], cs => some cs
  | _ :: _, [] => none
  | t :: ts, c :: cs => if c = t then matchesTag ts cs else none

/-- Modelled from the spec: the implementation of `shouldRespondInGroup`
lives in `group-filter.js`, which is not among the sources; only its callsite
is.  Per the spec ("Group filter: non-mentioned group messages are dropped
unless group config disables the requirement") and the configuration types
("only respond when the bot is @-mentioned or the message matches the smart
group filter heuristics", with `botNames` the "Bot name aliases used for
group-chat address detection"), the filter answers true exactly when some
mention targets the bot or the text is addressed to one of the configured
bot names.  The signature mirrors the callsite exactly: only the text, the
mentions and the bot names are available — no chat id and no per-group
configuration. -/
def shouldRespondInGroup (text : String) (mentions : List Mention)
    (botNames : Option (List String)) : Bool :=
  mentions.any (·.mentionsBot) ||
    (botNames.getD []).any fun n => n != "" && (matchesTag n.toList text.toList).isSome

/-! ## String primitives

`String.trim` and `String.endsWith` from the Lean library are implemented on
byte positions with well-founded recursion; the structural versions below
compute the same JavaScript operations (`String.prototype.trim` and
`String.prototype.endsWith`) on character lists, with `Char.isWhitespace` as
the whitespace class. -/

/-- Whitespace removed from both ends of a character list. -/
def trimChars (cs : List Char) : List Char :=
  ((cs.dropWhile Char.isWhitespace).reverse.dropWhile Char.isWhitespace).reverse

/-- Embeds `s.trim()`. -/
def jsTrim (s : String) : String :=
  String.mk (trimChars s.data)

/-- Embeds `s.endsWith(post)`. -/
def jsEndsWith (s post : String) : Bool :=
  (matchesTag post.data.reverse s.data.reverse).isSome

/-! ## Stripping group @-mention tokens

The group branch runs `text.replace(/@_user_\d+\s*/g, "")`: repeatedly
remove a literal `@_user_` followed by one or more digits and any following
whitespace. -/

/-- Characters of the literal part of the mention-token pattern. -/
def atUserTag : List Char := '@' :: '_' :: 'u' :: 's' :: 'e' :: 'r' :: '_' :: []

/-- Length of a match of the pattern at the head of `cs`, if any: the tag,
then one or more digits (greedy), then any whitespace (greedy). -/
def matchAtUserLen (cs : List Char) : Option Nat :=
  match matchesTag atUserTag cs with
  | none => none
  | some rest =>
    let digits := rest.takeWhile Char.isDigit
    if digits.isEmpty then none
    else
      let rest2 := rest.drop digits.length
      let spaces := rest2.takeWhile Char.isWhitespace
      some (atUserTag.length + digits.length + spaces.length)

/-- One left-to-right global-replace pass, with fuel (the matched span is at
least one character, so fuel equal to the list length suffices; at fuel 0 the
remaining characters are returned unchanged, which is never reached from
`stripAtUserTokens`). -/
def stripAtUserAux : Nat → List Char → List Char
  | 0, cs => cs
  | _ + 1, [] => []
  | fuel + 1, c :: cs =>
    match matchAtUserLen (c :: cs) with
    | some n => stripAtUserAux fuel ((c :: cs).drop n)
    | none => c :: stripAtUserAux fuel cs

/-- Embeds `text.replace(/@_user_\d+\s*/g, "")`. -/
def stripAtUserTokens (s : String) : String :=
  String.mk (stripAtUserAux s.data.length s.data)

/-! ## Inbound event model -/

/-- Outcome of `JSON.parse` on the message content followed by the `.text`
read: either the parse (or the subsequent `.trim()` on a non-string field)
throws, or it yields an object whose `text` field is the given optional
string. -/
inductive ParsedContent where
  | malformed
  | obj (textField : Option String)
deriving DecidableEq, Repr

/-- The fields of the inbound `message` object the handler reads. -/
structure InboundMessage where
  chatId : Option String
  messageId : Option String
  messageType : Option String
  content : Option ParsedContent
  chatType : Option String
  mentions : Option (List Mention)
deriving DecidableEq, Repr

/-- The `sender.sender_id` object (only `open_id` is read). -/
structure SenderInfo where
  openId : Option String
deriving DecidableEq, Repr

/-- The event payload handed to the message handler. -/
structure EventData where
  message : Option InboundMessage
  sender : Option SenderInfo
deriving DecidableEq, Repr

/-- The message id carried by an event, when any. -/
def eventMessageId (data : EventData) : Option String :=
  data.message.bind (·.messageId)

/-! ## Reply payloads and the dispatch environment -/

/-- A payload handed to the `deliver` callback: either a bare string or an
object with optional `text`, `body`, `mediaUrl` and `mediaUrls` fields. -/
inductive PayloadVal where
  | str (s : String)
  | obj (text body mediaUrl : Option String) (mediaUrls : Option (List String))
deriving DecidableEq, Repr

/-- Embeds `typeof p === "string" ? p : (p?.text ?? p?.body ?? "")`. -/
def payloadReplyText : PayloadVal → String
  | PayloadVal.str s => s
  | PayloadVal.obj text body _ _ =>
    match text with
    | some t => t
    | none => body.getD ""

/-- Embeds `typeof p === "string" ? undefined : (p?.mediaUrl ?? p?.mediaUrls?.[0])`. -/
def payloadMediaUrl : PayloadVal → Option String
  | PayloadVal.str _ => none
  | PayloadVal.obj _ _ mediaUrl mediaUrls =>
    match mediaUrl with
    | some u => some u
    | none => (mediaUrls.getD []).head?

/-- The skip test at the top of the `deliver` callback: the trimmed reply
text is empty, equals `"NO_REPLY"` or ends with `"NO_REPLY"`, and the payload
carries no truthy media URL. -/
def isSkipPayload (p : PayloadVal) : Bool :=
  let trimmed := jsTrim (payloadReplyText p)
  (trimmed == "" || trimmed == "NO_REPLY" || jsEndsWith trimmed "NO_REPLY") &&
    (payloadMediaUrl p).getD "" == ""

/-- How the asynchronous reply dispatch ends for this inbound message: the
dispatcher invokes `deliver` with a payload, invokes `onError`, or the
`dispatchReplyWithBufferedBlockDispatcher` promise rejects. -/
inductive DispatchOutcome where
  | delivers (payload : PayloadVal)
  | errors (message : String)
  | throws (message : String)
deriving DecidableEq, Repr

/-- How the placeholder timer interleaves with the terminal
deliver/onError/throw step.  The timer callback is not atomic: it checks the
completion flag, then suspends at `await ctx.client.im.message.create(...)`,
and only when that call resolves does it write
`placeholderId = res?.data?.message_id ?? ""`.

* `notFired`: the callback never ran before the terminal step — the timer
  was still pending and got cleared (or, equivalently for the observable
  behaviour, the `if (done) return` guard stopped it).
* `firedBeforeReply`: the callback ran and its create call resolved (and
  wrote `placeholderId`) before the terminal step.
* `firedCreateInFlight`: the callback ran and issued the create call, but
  the terminal step arrived while that call was still awaited — the
  deliver/onError/catch code reads `placeholderId` as `""`, and the write at
  the end of the callback happens only afterwards. -/
inductive TimerOutcome where
  | notFired
  | firedBeforeReply
  | firedCreateInFlight
deriving DecidableEq, Repr

/-- The schedule of the asynchronous environment around one inbound message:
whether the runtime's reply dispatcher is available, how the dispatch ends,
how the placeholder timer interleaves with the reply, and the outcome of
each platform REST call the handler may make.  `createMessageId` is `none`
when `im.message.create` throws and otherwise the
`res?.data?.message_id ?? ""` the handler reads back. -/
structure DispatchEnv where
  dispatchAvailable : Bool
  outcome : DispatchOutcome
  timer : TimerOutcome
  createMessageId : Option String
  updateOk : Bool
  deleteOk : Bool
  sendTextOk : Bool
  sendMediaOk : Bool
deriving DecidableEq, Repr

/-! ## Observable behaviour -/

/-- A platform call made by the handler, with its outcome.  For `create`,
`result` is `none` when the call threw and otherwise the message id read
back from the response. -/
inductive CallEvent where
  | create (chatId content : String) (result : Option String)
  | update (messageId text : String) (ok : Bool)
  | delete (messageId : String) (ok : Bool)
  | sendText (chatId text : String) (ok : Bool)
  | sendMedia (chatId mediaUrl text : String) (ok : Bool)
deriving DecidableEq, Repr

/-- Log lines the handler and its wrapper can emit, tagged by account. -/
inductive LogEvent where
  | receivedInfo (accountId : String)
  | dispatchUnavailable (accountId : String)
  | sendReplyFailed (accountId : String)
  | dispatcherError (accountId message : String)
  | dispatchError (accountId message : String)
  | handlerError (accountId : String) (err : String)
deriving DecidableEq, Repr

/-- An error escaping `handleIncomingMessage` itself.  The only `await` whose
rejection is not caught inside the handler is the `deleteMessage` in its
`catch` block. -/
inductive HandlerError where
  | deleteFailed (messageId : String)
deriving DecidableEq, Repr

/-- What `deleteFailed` renders to in the wrapper's log line. -/
def handlerErrorText : HandlerError → String
  | HandlerError.deleteFailed messageId => "deleteMessage failed: " ++ messageId

/-- Observable result of one `handleIncomingMessage` run. -/
structure RunResult where
  dispatched : Bool
  calls : List CallEvent
  logs : List LogEvent
  placeholderId : String
  raised : Option HandlerError
deriving DecidableEq, Repr

/-- The result of a run that returns before dispatching. -/
def emptyRun : RunResult :=
  { dispatched := false, calls := [], logs := [], placeholderId := "", raised := none }

/-- The text of the "thinking…" placeholder message. -/
def thinkingText : String := "正在思考…"

/-! ## The deliver callback -/

/-- Result of one `deliver` callback invocation: the platform calls it made,
the log lines it wrote, and the value of the `placeholderId` variable when it
returned. -/
structure DeliverResult where
  calls : List CallEvent
  logs : List LogEvent
  placeholderId : String
deriving DecidableEq, Repr

/-- Embeds the `deliver` callback of `dispatcherOptions` (after it sets the
completion flag and clears the timer).  The reply text and media URL are read
off the payload; a payload whose trimmed text is empty, equals `"NO_REPLY"`
or ends with `"NO_REPLY"` and that carries no (truthy) media URL deletes any
placeholder and sends nothing — note that this `deleteMessage` is the one
`await` of the callback outside its `try`, so its failure is recorded but
yields no `sendReplyFailed` log.  Otherwise a media reply deletes the
placeholder (a failure here lands in the `catch`, skipping the send) and
uploads the media; a text reply updates the placeholder when one exists and
is otherwise sent as a fresh message.  A failure inside the `try` is logged
and swallowed; a failed update or skipped-by-failure delete leaves
`placeholderId` set, since the variable is cleared only after the `await`
returns. -/
def deliver (accountId : String) (env : DispatchEnv) (chatId placeholderId : String)
    (payload : PayloadVal) : DeliverResult :=
  let replyText := payloadReplyText payload
  let mediaUrl := (payloadMediaUrl payload).getD ""
  if isSkipPayload payload then
    if placeholderId == "" then
      { calls := [], logs := [], placeholderId := placeholderId }
    else
      { calls := [CallEvent.delete placeholderId env.deleteOk], logs := [],
        placeholderId := placeholderId }
  else if mediaUrl != "" then
    if placeholderId == "" then
      { calls := [CallEvent.sendMedia chatId mediaUrl replyText env.sendMediaOk],
        logs := if env.sendMediaOk then [] else [LogEvent.sendReplyFailed accountId],
        placeholderId := placeholderId }
    else if env.deleteOk then
      { calls := [CallEvent.delete placeholderId true,
                  CallEvent.sendMedia chatId mediaUrl replyText env.sendMediaOk],
        logs := if env.sendMediaOk then [] else [LogEvent.sendReplyFailed accountId],
        placeholderId := "" }
    else
      { calls := [CallEvent.delete placeholderId false],
        logs := [LogEvent.sendReplyFailed accountId],
        placeholderId := placeholderId }
  else if placeholderId != "" then
    if env.updateOk then
      { calls := [CallEvent.update placeholderId replyText true], logs := [],
        placeholderId := "" }
    else
      { calls := [CallEvent.update placeholderId replyText false],
        logs := [LogEvent.sendReplyFailed accountId],
        placeholderId := placeholderId }
  else
    { calls := [CallEvent.sendText chatId replyText env.sendTextOk],
      logs := if env.sendTextOk then [] else [LogEvent.sendReplyFailed accountId],
      placeholderId := placeholderId }

/-! ## The placeholder timer and the dispatch phase -/

/-- Embeds the dispatch phase of `handleIncomingMessage`, from the timer
setup to the end of the `try`/`catch`.  The timer is scheduled only when the
threshold is positive; its callback, when it runs (`timer ≠ notFired`),
issues the `im.message.create` call before the terminal step, but writes the
returned id into `placeholderId` only when that call resolves: before the
terminal step for `firedBeforeReply`, after it for `firedCreateInFlight` —
in the latter schedule the deliver/onError/catch code reads `placeholderId`
as `""`.  A throwing create is swallowed.  The dispatch then ends per the
schedule: `deliver` runs the callback above; `onError` logs the dispatcher
error and issues a fire-and-forget delete for any placeholder whose id it
can read (its rejection is swallowed by `.catch(() => {})`); a rejected
dispatch promise lands in the `catch`, which logs and awaits a delete for
any readable placeholder — the one await whose failure escapes the handler.
Finally, an in-flight create that resolves after the terminal step performs
its late `placeholderId` write, which nothing reads again. -/
def runDispatch (accountId : String) (env : DispatchEnv) (thinkingThresholdMs : Int)
    (chatId : String) : RunResult :=
  let placeholderId :=
    if 0 < thinkingThresholdMs ∧ env.timer = TimerOutcome.firedBeforeReply then
      match env.createMessageId with
      | some id => id
      | none => ""
    else ""
  let createCalls :=
    if 0 < thinkingThresholdMs ∧ env.timer ≠ TimerOutcome.notFired then
      [CallEvent.create chatId thinkingText env.createMessageId]
    else []
  let base :=
    match env.outcome with
    | DispatchOutcome.delivers payload =>
      let d := deliver accountId env chatId placeholderId payload
      { dispatched := true, calls := createCalls ++ d.calls, logs := d.logs,
        placeholderId := d.placeholderId, raised := none : RunResult }
    | DispatchOutcome.errors m =>
      { dispatched := true,
        calls := createCalls ++
          (if placeholderId == "" then [] else [CallEvent.delete placeholderId env.deleteOk]),
        logs := [LogEvent.dispatcherError accountId m],
        placeholderId := placeholderId, raised := none }
    | DispatchOutcome.throws m =>
      { dispatched := true,
        calls := createCalls ++
          (if placeholderId == "" then [] else [CallEvent.delete placeholderId env.deleteOk]),
        logs := [LogEvent.dispatchError accountId m],
        placeholderId := placeholderId,
        raised :=
          if placeholderId != "" && !env.deleteOk then
            some (HandlerError.deleteFailed placeholderId)
          else none }
  if 0 < thinkingThresholdMs ∧ env.timer = TimerOutcome.firedCreateInFlight then
    { base with placeholderId :=
        match env.createMessageId with
        | some id => id
        | none => base.placeholderId }
  else base

/-! ## The message handler -/

/-- The context `startFeishuProvider` builds for `handleIncomingMessage`:
account id, resolved threshold, bot names, and the account's group
configuration (which the handler, as embedded below, never reads). -/
structure MessageHandlerContext where
  accountId : String
  thinkingThresholdMs : Int
  botNames : Option (List String)
  groups : List (String × FeishuGroupConfig)
  requireMention : Option Bool
deriving DecidableEq, Repr

/-- Embeds `handleIncomingMessage`.  In source order: return when the event
has no `message` or no truthy `chat_id`; return when `isDuplicate` says the
id was already seen; return unless the message is a `text` message with
content; return when the parse throws or the trimmed text is empty; in a
group chat, strip `@_user_N` tokens and return when the remainder is empty
or `shouldRespondInGroup` declines; log the inbound, and return with an
error log when the runtime's reply dispatcher is unavailable; otherwise run
the placeholder/dispatch phase.  The dedup window is threaded explicitly and
returned alongside the run result. -/
def handleIncomingMessage (data : EventData) (ctx : MessageHandlerContext)
    (env : DispatchEnv) (seen : List String) : RunResult × List String :=
  match data.message with
  | none => (emptyRun, seen)
  | some message =>
    match message.chatId with
    | none => (emptyRun, seen)
    | some chatId =>
      if chatId == "" then (emptyRun, seen)
      else
        let dup := isDuplicate message.messageId seen
        if dup.1 then (emptyRun, dup.2)
        else if message.messageType != some "text" then (emptyRun, dup.2)
        else
          match message.content with
          | none => (emptyRun, dup.2)
          | some ParsedContent.malformed => (emptyRun, dup.2)
          | some (ParsedContent.obj textField) =>
            let text := jsTrim (textField.getD "")
            if text == "" then (emptyRun, dup.2)
            else
              let proceed :=
                if message.chatType == some "group" then
                  let mentions := message.mentions.getD []
                  let t := jsTrim (stripAtUserTokens text)
                  t != "" && shouldRespondInGroup t mentions ctx.botNames
                else true
              if proceed then
                if env.dispatchAvailable then
                  let r := runDispatch ctx.accountId env ctx.thinkingThresholdMs chatId
                  ({ r with logs := LogEvent.receivedInfo ctx.accountId :: r.logs },
                   dup.2)
                else
                  ({ emptyRun with
                      logs := [LogEvent.receivedInfo ctx.accountId,
                               LogEvent.dispatchUnavailable ctx.accountId] }, dup.2)
              else (emptyRun, dup.2)

/-- Embeds the `messageHandler` closure registered on the event dispatcher:
it awaits `handleIncomingMessage` inside a `try`/`catch` whose `catch` only
logs the error per account, so the handler itself always resolves — by
construction its result is a plain log list and updated window, never a
rejection. -/
def messageHandler (data : EventData) (ctx : MessageHandlerContext)
    (env : DispatchEnv) (seen : List String) : List LogEvent × List String :=
  let r := handleIncomingMessage data ctx env seen
  (r.1.logs ++
     (match r.1.raised with
      | some e => [LogEvent.handlerError ctx.accountId (handlerErrorText e)]
      | none => []),
   r.2)

/-! ## Trace predicates -/

/-- The ids of placeholders actually created on the platform: `create` calls
that returned a non-empty message id. -/
def createdPlaceholderIds (calls : List CallEvent) : List String :=
  calls.filterMap fun c =>
    match c with
    | CallEvent.create _ _ (some id) => if id == "" then none else some id
    | _ => none

/-- Whether the trace settles placeholder `p`: a successful update of `p` or
a successful delete of `p`. -/
def resolvesPlaceholder (p : String) (calls : List CallEvent) : Bool :=
  calls.any fun c =>
    match c with
    | CallEvent.update q _ ok => q == p && ok
    | CallEvent.delete q ok => q == p && ok
    | _ => false

/-- Whether the trace at least attempts to settle placeholder `p`: an update
or delete call on `p`, successful or not. -/
def attemptsOnPlaceholder (p : String) (calls : List CallEvent) : Bool :=
  calls.any fun c =>
    match c with
    | CallEvent.update q _ _ => q == p
    | CallEvent.delete q _ => q == p
    | _ => false

/-- Every placeholder the trace created is settled by the trace. -/
def placeholderHandled (calls : List CallEvent) : Bool :=
  (createdPlaceholderIds calls).all fun p => resolvesPlaceholder p calls

/-- Whether the trace contains any `im.message.create` call. -/
def hasCreateCall (calls : List CallEvent) : Bool :=
  calls.any fun c =>
    match c with
    | CallEvent.create _ _ _ => true
    | _ => false

/-- Whether the trace contains any placeholder-related call (create, update
or delete). -/
def hasPlaceholderCall (calls : List CallEvent) : Bool :=
  calls.any fun c =>
    match c with
    | CallEvent.create _ _ _ => true
    | CallEvent.update _ _ _ => true
    | CallEvent.delete _ _ => true
    | _ => false

/-- Whether the trace contains a direct send (text or media). -/
def hasSendCall (calls : List CallEvent) : Bool :=
  calls.any fun c =>
    match c with
    | CallEvent.sendText _ _ _ => true
    | CallEvent.sendMedia _ _ _ _ => true
    | _ => false

/-! ## Concrete instances

Concrete events, contexts and schedules used by the closed theorems
(counterexamples and witnesses). -/

/-- A direct-chat text message "hi" with id `om_1` in chat `oc_chat`. -/
def sampleMessage : InboundMessage :=
  { chatId := some "oc_chat", messageId := some "om_1", messageType := some "text",
    content := some (ParsedContent.obj (some "hi")), chatType := some "p2p",
    mentions := none }

/-- The event wrapping `sampleMessage`. -/
def sampleData : EventData :=
  { message := some sampleMessage, sender := some { openId := some "ou_sender" } }

/-- A handler context with the default 2500 ms threshold. -/
def sampleCtx : MessageHandlerContext :=
  { accountId := "default", thinkingThresholdMs := 2500, botNames := none,
    groups := [], requireMention := none }

/-- The context above with the placeholder threshold set to 0. -/
def zeroThresholdCtx : MessageHandlerContext :=
  { sampleCtx with thinkingThresholdMs := 0 }

/-- A schedule where the timer fires and its create resolves as `om_ph`
before the reply, the dispatcher delivers the text reply "hello" and every
platform call succeeds. -/
def okEnv : DispatchEnv :=
  { dispatchAvailable := true,
    outcome := DispatchOutcome.delivers (PayloadVal.obj (some "hello") none none none),
    timer := TimerOutcome.firedBeforeReply, createMessageId := some "om_ph",
    updateOk := true, deleteOk := true, sendTextOk := true, sendMediaOk := true }

/-- The schedule above, except that `updateMessage` fails. -/
def failingUpdateEnv : DispatchEnv :=
  { okEnv with updateOk := false }

/-- The schedule above with the reply arriving before the timer fires. -/
def noTimerEnv : DispatchEnv :=
  { okEnv with timer := TimerOutcome.notFired }

/-- The schedule above with the reply arriving while the timer's create call
is still awaited (every platform call still succeeds). -/
def inFlightEnv : DispatchEnv :=
  { okEnv with timer := TimerOutcome.firedCreateInFlight }

/-- The schedule above with the dispatcher reporting the error "boom" via
`onError`. -/
def errorEnv : DispatchEnv :=
  { okEnv with outcome := DispatchOutcome.errors "boom" }

/-- The error schedule with the create call still in flight when `onError`
runs. -/
def inFlightErrorEnv : DispatchEnv :=
  { errorEnv with timer := TimerOutcome.firedCreateInFlight }

/-- A group-chat text message "hello there" in chat `oc_group_1`, with no
mentions. -/
def groupMessage : InboundMessage :=
  { chatId := some "oc_group_1", messageId := some "om_2", messageType := some "text",
    content := some (ParsedContent.obj (some "hello there")), chatType := some "group",
    mentions := some [] }

/-- The event wrapping `groupMessage`. -/
def groupData : EventData :=
  { message := some groupMessage, sender := some { openId := some "ou_sender" } }

/-- A handler context whose per-group configuration sets
`requireMention := false` for exactly the chat of `groupMessage`. -/
def groupCtx : MessageHandlerContext :=
  { accountId := "default", thinkingThresholdMs := 2500,
    botNames := some ["assistant"],
    groups := [("oc_group_1", { requireMention := some false })],
    requireMention := none }

/-- A configuration selecting the webhook connection mode. -/
def webhookCfg : FeishuAccountConfig :=
  { thinkingThresholdMs := none, botNames := none, connectionMode := some "webhook",
    domain := none, webhookPort := none, webhookPath := none, groups := [],
    requireMention := none }

/-! ## Helper lemmas -/

/-- `createdPlaceholderIds` distributes over append. -/
theorem createdPlaceholderIds_append (l1 l2 : List CallEvent) :
    createdPlaceholderIds (l1 ++ l2) = createdPlaceholderIds l1 ++ createdPlaceholderIds l2 := by
  simp [createdPlaceholderIds]

/-- `resolvesPlaceholder` distributes over append. -/
theorem resolvesPlaceholder_append (p : String) (l1 l2 : List CallEvent) :
    resolvesPlaceholder p (l1 ++ l2) = (resolvesPlaceholder p l1 || resolvesPlaceholder p l2) := by
  simp [resolvesPlaceholder]

/-- `attemptsOnPlaceholder` distributes over append. -/
theorem attemptsOnPlaceholder_append (p : String) (l1 l2 : List CallEvent) :
    attemptsOnPlaceholder p (l1 ++ l2) =
      (attemptsOnPlaceholder p l1 || attemptsOnPlaceholder p l2) := by
  simp [attemptsOnPlaceholder]

/-- `hasCreateCall` distributes over append. -/
theorem hasCreateCall_append (l1 l2 : List CallEvent) :
    hasCreateCall (l1 ++ l2) = (hasCreateCall l1 || hasCreateCall l2) := by
  simp [hasCreateCall]

/-- `hasPlaceholderCall` distributes over append. -/
theorem hasPlaceholderCall_append (l1 l2 : List CallEvent) :
    hasPlaceholderCall (l1 ++ l2) = (hasPlaceholderCall l1 || hasPlaceholderCall l2) := by
  simp [hasPlaceholderCall]

/-- `hasSendCall` distributes over append. -/
theorem hasSendCall_append (l1 l2 : List CallEvent) :
    hasSendCall (l1 ++ l2) = (hasSendCall l1 || hasSendCall l2) := by
  simp [hasSendCall]

/-- The empty trace has no create call. -/
theorem hasCreateCall_nil : hasCreateCall [] = false := rfl

/-- The empty trace has no placeholder call. -/
theorem hasPlaceholderCall_nil : hasPlaceholderCall [] = false := rfl

/-- The `deliver` callback never creates a placeholder. -/
theorem deliver_no_create (aid : String) (e : DispatchEnv) (cid ph : String) (p : PayloadVal) :
    createdPlaceholderIds (deliver aid e cid ph p).calls = [] := by
  simp only [deliver]
  repeat' split
  all_goals rfl

/-- The `deliver` callback issues no `im.message.create` call. -/
theorem deliver_no_create_call (aid : String) (e : DispatchEnv) (cid ph : String)
    (p : PayloadVal) :
    hasCreateCall (deliver aid e cid ph p).calls = false := by
  simp only [deliver]
  repeat' split
  all_goals rfl

/-- When the update and delete calls succeed, `deliver` settles a pending
placeholder on every path. -/
theorem deliver_resolves (aid : String) (e : DispatchEnv) (cid ph : String) (p : PayloadVal)
    (hu : e.updateOk = true) (hd : e.deleteOk = true) (hph : ph ≠ "") :
    resolvesPlaceholder ph (deliver aid e cid ph p).calls = true := by
  simp only [deliver]
  repeat' split <;> simp_all [resolvesPlaceholder]

/-- `deliver` always attempts an update or delete on a pending placeholder. -/
theorem deliver_attempts (aid : String) (e : DispatchEnv) (cid ph : String) (p : PayloadVal)
    (hph : ph ≠ "") :
    attemptsOnPlaceholder ph (deliver aid e cid ph p).calls = true := by
  simp only [deliver]
  repeat' split
  all_goals simp_all [attemptsOnPlaceholder]

/-- With no pending placeholder, `deliver` makes no placeholder call. -/
theorem deliver_no_placeholder_calls (aid : String) (e : DispatchEnv) (cid : String)
    (p : PayloadVal) :
    hasPlaceholderCall (deliver aid e cid "" p).calls = false := by
  simp only [deliver]
  repeat' split
  all_goals simp_all [hasPlaceholderCall]

/-- With no pending placeholder and a non-skip payload, `deliver` sends the
reply directly. -/
theorem deliver_sends_without_placeholder (aid : String) (e : DispatchEnv) (cid : String)
    (p : PayloadVal) (h : isSkipPayload p = false) :
    hasSendCall (deliver aid e cid "" p).calls = true := by
  simp only [deliver]
  repeat' split
  all_goals simp_all [hasSendCall]

/-- Introduction rule for `placeholderHandled`. -/
theorem placeholderHandled_of (calls : List CallEvent)
    (h : ∀ p, p ∈ createdPlaceholderIds calls → resolvesPlaceholder p calls = true) :
    placeholderHandled calls = true := by
  simpa [placeholderHandled, List.all_eq_true] using h

/-- The dispatch phase settles every created placeholder when update and
delete calls succeed and the timer's create was not still in flight when the
reply arrived. -/
theorem runDispatch_handled (aid : String) (e : DispatchEnv) (th : Int) (cid : String)
    (hu : e.updateOk = true) (hd : e.deleteOk = true)
    (hifl : e.timer ≠ TimerOutcome.firedCreateInFlight) :
    placeholderHandled (runDispatch aid e th cid).calls = true := by
  apply placeholderHandled_of
  intro q hq
  rcases htm : e.timer with _ | _ | _
  · rcases ho : e.outcome with p | m | m <;>
      simp only [runDispatch, htm, ho, and_false, and_not_self, if_false, reduceCtorEq,
        ne_eq, not_true_eq_false, and_true, if_neg, not_false_eq_true, List.nil_append,
        reduceIte] at hq ⊢
    · rw [deliver_no_create] at hq
      simp at hq
    · simp [createdPlaceholderIds] at hq
    · simp [createdPlaceholderIds] at hq
  · by_cases hth : (0 : Int) < th
    all_goals rcases ho : e.outcome with p | m | m <;>
      simp only [runDispatch, htm, ho, hth, reduceCtorEq, ne_eq, not_false_eq_true,
        true_and, false_and, and_true, and_false, if_true, if_false, not_true_eq_false,
        reduceIte, List.nil_append] at hq ⊢
    · rcases hc : e.createMessageId with _ | id <;>
        simp only [hc, createdPlaceholderIds_append, resolvesPlaceholder_append,
          deliver_no_create, List.append_nil] at hq ⊢
      · simp [createdPlaceholderIds] at hq
      · simp only [createdPlaceholderIds, List.filterMap] at hq
        cases hid : (id == "") <;> simp [hid] at hq
        subst hq
        have hres : resolvesPlaceholder q (deliver aid e cid q p).calls = true :=
          deliver_resolves aid e cid q p hu hd (by simpa using hid)
        simpa [resolvesPlaceholder] using hres
    · rcases hc : e.createMessageId with _ | id <;> simp only [hc] at hq ⊢
      · simp [createdPlaceholderIds] at hq
      · cases hid : (id == "")
        · simp [hid, createdPlaceholderIds] at hq ⊢
          rcases hq with ⟨hne, rfl⟩
          simp [resolvesPlaceholder, hd]
        · have hid2 : id = "" := by simpa using hid
          subst hid2
          simp [createdPlaceholderIds] at hq
    · rcases hc : e.createMessageId with _ | id <;> simp only [hc] at hq ⊢
      · simp [createdPlaceholderIds] at hq
      · cases hid : (id == "")
        · simp [hid, createdPlaceholderIds] at hq ⊢
          rcases hq with ⟨hne, rfl⟩
          simp [resolvesPlaceholder, hd]
        · have hid2 : id = "" := by simpa using hid
          subst hid2
          simp [createdPlaceholderIds] at hq
    · rw [deliver_no_create] at hq
      simp at hq
    · simp [createdPlaceholderIds] at hq
    · simp [createdPlaceholderIds] at hq
  · exact absurd htm hifl

/-- Every run of the handler is either an early return (no dispatch, an
optional pair of info/error logs) or the dispatch phase for some chat id
with the inbound-info log prepended. -/
theorem handleIncomingMessage_shape (d : EventData) (c : MessageHandlerContext)
    (e : DispatchEnv) (s : List String) :
    (handleIncomingMessage d c e s).1 = emptyRun ∨
    (handleIncomingMessage d c e s).1 =
      { emptyRun with logs := [LogEvent.receivedInfo c.accountId,
                               LogEvent.dispatchUnavailable c.accountId] } ∨
    ∃ chatId, (handleIncomingMessage d c e s).1 =
      { runDispatch c.accountId e c.thinkingThresholdMs chatId with
        logs := LogEvent.receivedInfo c.accountId ::
          (runDispatch c.accountId e c.thinkingThresholdMs chatId).logs } := by
  simp only [handleIncomingMessage]
  repeat' split
  all_goals try exact Or.inl rfl
  all_goals try exact Or.inr (Or.inl rfl)
  all_goals exact Or.inr (Or.inr ⟨_, rfl⟩)

/-- A timer whose callback never ran before the reply leaves no create call
in the dispatch phase. -/
theorem runDispatch_no_create_without_timer (aid : String) (e : DispatchEnv) (th : Int)
    (cid : String) (h : e.timer = TimerOutcome.notFired) :
    hasCreateCall (runDispatch aid e th cid).calls = false := by
  rcases ho : e.outcome with p | m | m <;>
    simp [runDispatch, ho, h, hasCreateCall_append, deliver_no_create_call, hasCreateCall_nil]

/-- A timer whose create resolved to a non-empty id before the reply puts
the create first in the trace, followed by an update or delete attempt on
that id. -/
theorem runDispatch_create_then_attempt (aid : String) (e : DispatchEnv) (th : Int)
    (cid : String) (p : String) (ht : e.timer = TimerOutcome.firedBeforeReply) (hth : 0 < th)
    (hc : e.createMessageId = some p) (hp : p ≠ "") :
    ∃ rest, (runDispatch aid e th cid).calls =
        CallEvent.create cid thinkingText (some p) :: rest ∧
      attemptsOnPlaceholder p rest = true := by
  rcases ho : e.outcome with q | m | m <;>
    simp only [runDispatch, ho, ht, hth, hc, reduceCtorEq, ne_eq, not_false_eq_true,
      true_and, and_true, and_false, if_true, if_false, reduceIte, List.cons_append,
      List.nil_append]
  · exact ⟨(deliver aid e cid p q).calls, rfl, deliver_attempts aid e cid p q hp⟩
  · refine ⟨_, rfl, ?_⟩
    simp [attemptsOnPlaceholder, hp]
  · refine ⟨_, rfl, ?_⟩
    simp [attemptsOnPlaceholder, hp]

/-- With a non-positive threshold no timer exists under any schedule: the
dispatch phase makes no placeholder call, and a delivered non-skip payload
is sent directly. -/
theorem runDispatch_threshold_nonpositive (aid : String) (e : DispatchEnv) (th : Int)
    (cid : String) (h : th ≤ 0) :
    hasPlaceholderCall (runDispatch aid e th cid).calls = false ∧
    (∀ p, e.outcome = DispatchOutcome.delivers p → isSkipPayload p = false →
      hasSendCall (runDispatch aid e th cid).calls = true) := by
  have hth : ¬(0 : Int) < th := by omega
  rcases ho : e.outcome with p | m | m <;>
    simp [runDispatch, ho, hth, hasPlaceholderCall_append, hasSendCall_append,
      hasPlaceholderCall_nil, deliver_no_placeholder_calls]
  all_goals intro hp
  all_goals exact deliver_sends_without_placeholder aid e cid _ hp

/-- A dispatched run records the message id in the dedup window, and a
message id already in the window short-circuits the whole handler. -/
theorem handle_dedup_facts (d : EventData) (c : MessageHandlerContext) (e : DispatchEnv)
    (s : List String) (mid : String) (h : eventMessageId d = some mid) :
    ((handleIncomingMessage d c e s).1.dispatched = true →
      mid ∈ (handleIncomingMessage d c e s).2) ∧
    (mid ∈ s → (handleIncomingMessage d c e s).1 = emptyRun) := by
  rcases hm : d.message with _ | message
  · simp [eventMessageId, hm] at h
  · have hmid : message.messageId = some mid := by simpa [eventMessageId, hm] using h
    rcases hcid : message.chatId with _ | chatId
    · simp [handleIncomingMessage, hm, hcid, emptyRun]
    · by_cases hch : (chatId == "") = true
      · simp [handleIncomingMessage, hm, hcid, hch, emptyRun]
      · by_cases hctn : mid ∈ s
        · constructor
          · intro hdisp
            simp [handleIncomingMessage, hm, hcid, hch, hmid, isDuplicate, hctn,
              emptyRun] at hdisp
          · intro _
            simp [handleIncomingMessage, hm, hcid, hch, hmid, isDuplicate, hctn, emptyRun]
        · constructor
          · intro _
            simp only [handleIncomingMessage, hm, hcid, hch, hmid, isDuplicate]
            repeat' split
            all_goals simp_all
          · intro hmem
            exact absurd hmem hctn

/-- When the timer's create was not in flight at the terminal step, every
created placeholder in the dispatch phase receives an update or delete
attempt, whatever the outcome and call results. -/
theorem runDispatch_attempts (aid : String) (e : DispatchEnv) (th : Int) (cid : String)
    (q : String) (hifl : e.timer ≠ TimerOutcome.firedCreateInFlight)
    (hq : q ∈ createdPlaceholderIds (runDispatch aid e th cid).calls) :
    attemptsOnPlaceholder q (runDispatch aid e th cid).calls = true := by
  rcases htm : e.timer with _ | _ | _
  · rcases ho : e.outcome with p | m | m <;>
      simp only [runDispatch, htm, ho, and_false, and_not_self, if_false, reduceCtorEq,
        ne_eq, not_true_eq_false, and_true, if_neg, not_false_eq_true, List.nil_append,
        reduceIte] at hq ⊢
    · rw [deliver_no_create] at hq
      simp at hq
    · simp [createdPlaceholderIds] at hq
    · simp [createdPlaceholderIds] at hq
  · by_cases hth : (0 : Int) < th
    all_goals rcases ho : e.outcome with p | m | m <;>
      simp only [runDispatch, htm, ho, hth, reduceCtorEq, ne_eq, not_false_eq_true,
        true_and, false_and, and_true, and_false, if_true, if_false, not_true_eq_false,
        reduceIte, List.nil_append] at hq ⊢
    · rcases hc : e.createMessageId with _ | id <;>
        simp only [hc, createdPlaceholderIds_append, attemptsOnPlaceholder_append,
          deliver_no_create, List.append_nil] at hq ⊢
      · simp [createdPlaceholderIds] at hq
      · simp only [createdPlaceholderIds, List.filterMap] at hq
        cases hid : (id == "") <;> simp [hid] at hq
        subst hq
        have hres := deliver_attempts aid e cid q p (by simpa using hid)
        simpa [attemptsOnPlaceholder] using hres
    · rcases hc : e.createMessageId with _ | id <;> simp only [hc] at hq ⊢
      · simp [createdPlaceholderIds] at hq
      · cases hid : (id == "")
        · simp [hid, createdPlaceholderIds] at hq ⊢
          rcases hq with ⟨hne, rfl⟩
          simp [attemptsOnPlaceholder]
        · have hid2 : id = "" := by simpa using hid
          subst hid2
          simp [createdPlaceholderIds] at hq
    · rcases hc : e.createMessageId with _ | id <;> simp only [hc] at hq ⊢
      · simp [createdPlaceholderIds] at hq
      · cases hid : (id == "")
        · simp [hid, createdPlaceholderIds] at hq ⊢
          rcases hq with ⟨hne, rfl⟩
          simp [attemptsOnPlaceholder]
        · have hid2 : id = "" := by simpa using hid
          subst hid2
          simp [createdPlaceholderIds] at hq
    · rw [deliver_no_create] at hq
      simp at hq
    · simp [createdPlaceholderIds] at hq
    · simp [createdPlaceholderIds] at hq
  · exact absurd htm hifl

/-- Dispatcher errors and rejected dispatches each leave their log line. -/
theorem runDispatch_error_logged (aid : String) (e : DispatchEnv) (th : Int) (cid m : String)
    (h : e.outcome = DispatchOutcome.errors m ∨ e.outcome = DispatchOutcome.throws m) :
    LogEvent.dispatcherError aid m ∈ (runDispatch aid e th cid).logs ∨
    LogEvent.dispatchError aid m ∈ (runDispatch aid e th cid).logs := by
  rcases h with h | h <;> simp only [runDispatch] <;> split <;> simp [h]

/-- When `deleteMessage` succeeds, no error escapes the dispatch phase. -/
theorem runDispatch_raised_none (aid : String) (e : DispatchEnv) (th : Int) (cid : String)
    (hd : e.deleteOk = true) :
    (runDispatch aid e th cid).raised = none := by
  rcases ho : e.outcome with p | m | m <;> simp only [runDispatch] <;> split <;>
    simp [ho, hd]

/-- Whatever escapes `handleIncomingMessage` is logged per account by the
registered wrapper. -/
theorem messageHandler_logs_raised (d : EventData) (c : MessageHandlerContext)
    (e : DispatchEnv) (s : List String) (err : HandlerError)
    (h : (handleIncomingMessage d c e s).1.raised = some err) :
    LogEvent.handlerError c.accountId (handlerErrorText err) ∈ (messageHandler d c e s).1 := by
  simp [messageHandler, h]

/-! ## Claim theorems -/

/-- C1 (counterexample): the claim that every created placeholder is
subsequently updated or deleted on every control path — including a failing
`updateMessage` — is false on the code, in two ways.  First run: the timer
creates placeholder `om_ph`, the dispatcher delivers the text reply "hello",
the `updateMessage` call fails; the failure is only logged, no delete
follows, and the placeholder stays orphaned.  Second run: the reply arrives
while the timer's `im.message.create` is still awaited; `deliver` reads
`placeholderId` as `""` and sends the reply as a fresh message, the create
then resolves to `om_ph`, and the placeholder is orphaned although every
platform call succeeded. -/
theorem placeholder_orphan_counterexamples :
    ((handleIncomingMessage sampleData sampleCtx failingUpdateEnv []).1.calls =
        [CallEvent.create "oc_chat" thinkingText (some "om_ph"),
         CallEvent.update "om_ph" "hello" false] ∧
      placeholderHandled
        (handleIncomingMessage sampleData sampleCtx failingUpdateEnv []).1.calls = false) ∧
    ((handleIncomingMessage sampleData sampleCtx inFlightEnv []).1.calls =
        [CallEvent.create "oc_chat" thinkingText (some "om_ph"),
         CallEvent.sendText "oc_chat" "hello" true] ∧
      placeholderHandled
        (handleIncomingMessage sampleData sampleCtx inFlightEnv []).1.calls = false) := by
  decide

/-- C1 (amended): on every control path of the handler in which the platform
update and delete calls succeed and the timer's create call resolved before
the reply (or error) callback ran, any placeholder the timer created is
subsequently updated with the final reply content or deleted.  When an
`updateMessage` or `deleteMessage` call fails the failure is only logged,
and when the reply arrives while the create is still awaited the callbacks
read an empty placeholder id; in both cases the placeholder can remain. -/
theorem placeholder_settled_when_create_completed_and_calls_succeed (d : EventData)
    (c : MessageHandlerContext) (e : DispatchEnv) (s : List String)
    (hu : e.updateOk = true) (hd : e.deleteOk = true)
    (hifl : e.timer ≠ TimerOutcome.firedCreateInFlight) :
    placeholderHandled (handleIncomingMessage d c e s).1.calls = true := by
  rcases handleIncomingMessage_shape d c e s with h | h | ⟨cid, h⟩ <;> rw [h]
  · rfl
  · rfl
  · exact runDispatch_handled c.accountId e c.thinkingThresholdMs cid hu hd hifl

/-- C1 (witness): the amended claim at a concrete run whose create resolved
before the reply and whose update and delete calls succeed. -/
theorem placeholder_settled_when_create_completed_and_calls_succeed_witness :
    placeholderHandled (handleIncomingMessage sampleData sampleCtx okEnv []).1.calls = true :=
  placeholder_settled_when_create_completed_and_calls_succeed sampleData sampleCtx okEnv []
    rfl rfl (by decide)

/-- C2: two handler invocations whose events carry the same message id
dispatch at most one reply, and once the first invocation dispatched, the
second returns before reaching dispatch with an empty trace. -/
theorem dedup_dispatches_at_most_once (d1 d2 : EventData) (c1 c2 : MessageHandlerContext)
    (e1 e2 : DispatchEnv) (s0 : List String) (mid : String)
    (h1 : eventMessageId d1 = some mid) (h2 : eventMessageId d2 = some mid) :
    ¬((handleIncomingMessage d1 c1 e1 s0).1.dispatched = true ∧
      (handleIncomingMessage d2 c2 e2 (handleIncomingMessage d1 c1 e1 s0).2).1.dispatched
        = true) ∧
    ((handleIncomingMessage d1 c1 e1 s0).1.dispatched = true →
      (handleIncomingMessage d2 c2 e2 (handleIncomingMessage d1 c1 e1 s0).2).1 = emptyRun) := by
  have f1 := handle_dedup_facts d1 c1 e1 s0 mid h1
  have f2 := handle_dedup_facts d2 c2 e2 (handleIncomingMessage d1 c1 e1 s0).2 mid h2
  constructor
  · rintro ⟨hd1, hd2⟩
    rw [f2.2 (f1.1 hd1)] at hd2
    simp [emptyRun] at hd2
  · intro hd1
    exact f2.2 (f1.1 hd1)

/-- C2 (witness): replaying the same concrete event makes the second
invocation return before dispatch with an empty run. -/
theorem dedup_dispatches_at_most_once_witness :
    (handleIncomingMessage sampleData sampleCtx okEnv
      (handleIncomingMessage sampleData sampleCtx okEnv []).2).1 = emptyRun :=
  (dedup_dispatches_at_most_once sampleData sampleData sampleCtx sampleCtx okEnv okEnv []
    "om_1" rfl rfl).2 (by decide)

/-- C3 (code_bug evaluation): a group message in a chat whose per-group
configuration sets `requireMention := false`, with no mention and no match
of the address heuristics, is still dropped: the handler reaches
`shouldRespondInGroup` with only the text, the mentions and the bot names,
so the per-group override can play no role — the run dispatches nothing,
sends nothing, and its result does not depend on the `groups`
configuration at all. -/
theorem group_requireMention_override_ignored :
    (handleIncomingMessage groupData groupCtx okEnv []).1.dispatched = false ∧
    (handleIncomingMessage groupData groupCtx okEnv []).1.calls = [] ∧
    (∀ gs, (handleIncomingMessage groupData { groupCtx with groups := gs } okEnv []).1 =
      (handleIncomingMessage groupData groupCtx okEnv []).1) := by
  refine ⟨by decide, by decide, fun gs => ?_⟩
  rfl

/-- C4 (counterexample): the claim that a reply arriving only after the
threshold finds the placeholder created and then updated or deleted is false
on the code: when the reply arrives while the timer's `im.message.create` is
still awaited, the placeholder is created (the call resolves to `om_ph`) but
`deliver` read `placeholderId` as `""`, so no update or delete of it is ever
attempted. -/
theorem timer_race_inflight_counterexample :
    (handleIncomingMessage sampleData sampleCtx inFlightEnv []).1.calls =
      [CallEvent.create "oc_chat" thinkingText (some "om_ph"),
       CallEvent.sendText "oc_chat" "hello" true] ∧
    attemptsOnPlaceholder "om_ph"
      (handleIncomingMessage sampleData sampleCtx inFlightEnv []).1.calls = false := by
  decide

/-- C4 (amended): if the deliver (or onError) callback runs before the timer
fires, no placeholder create is ever issued — equivalently, a create is only
ever initiated by a timer callback that ran before the completion flag was
set; and if the timer fired and its create call resolved to a non-empty id
before the reply arrived, the trace starts with that create, followed by an
update or delete attempt on exactly that placeholder.  When the reply
instead arrives while the create is still awaited, the callbacks read an
empty placeholder id and the created placeholder receives no update or
delete. -/
theorem placeholder_timer_race (d : EventData) (c : MessageHandlerContext) (e : DispatchEnv)
    (s : List String) :
    (e.timer = TimerOutcome.notFired →
      hasCreateCall (handleIncomingMessage d c e s).1.calls = false) ∧
    (∀ p, e.timer = TimerOutcome.firedBeforeReply → 0 < c.thinkingThresholdMs →
      e.createMessageId = some p → p ≠ "" →
      (handleIncomingMessage d c e s).1.dispatched = true →
      ∃ cid rest, (handleIncomingMessage d c e s).1.calls =
          CallEvent.create cid thinkingText (some p) :: rest ∧
        attemptsOnPlaceholder p rest = true) := by
  rcases handleIncomingMessage_shape d c e s with h | h | ⟨cid, h⟩ <;> rw [h]
  · exact ⟨fun _ => rfl, fun p _ _ _ _ hdisp => by simp [emptyRun] at hdisp⟩
  · exact ⟨fun _ => rfl, fun p _ _ _ _ hdisp => by simp [emptyRun] at hdisp⟩
  · constructor
    · intro ht
      exact runDispatch_no_create_without_timer c.accountId e c.thinkingThresholdMs cid ht
    · intro p ht hth hc hp _
      obtain ⟨rest, hr, ha⟩ :=
        runDispatch_create_then_attempt c.accountId e c.thinkingThresholdMs cid p ht hth hc hp
      exact ⟨cid, rest, hr, ha⟩

/-- C4 (witness): both amended race outcomes at concrete runs — a reply
beating the timer creates nothing, and a timer whose create resolved first
is followed by an attempt on its placeholder. -/
theorem placeholder_timer_race_witness :
    hasCreateCall (handleIncomingMessage sampleData sampleCtx noTimerEnv []).1.calls = false ∧
    ∃ cid rest, (handleIncomingMessage sampleData sampleCtx okEnv []).1.calls =
        CallEvent.create cid thinkingText (some "om_ph") :: rest ∧
      attemptsOnPlaceholder "om_ph" rest = true :=
  ⟨(placeholder_timer_race sampleData sampleCtx noTimerEnv []).1 rfl,
   (placeholder_timer_race sampleData sampleCtx okEnv []).2 "om_ph" rfl (by decide) rfl
     (by decide) (by decide)⟩

/-- C5: a payload whose reply text trims to empty, equals `"NO_REPLY"` or
ends with `"NO_REPLY"`, and which carries no media URL, makes the `deliver`
callback delete the placeholder when one exists and send nothing: its trace
is exactly that optional delete — no create, update, text send or media
upload — and it logs nothing. -/
theorem empty_reply_deletes_placeholder_sends_nothing (aid : String) (e : DispatchEnv)
    (cid ph : String) (p : PayloadVal)
    (htext : jsTrim (payloadReplyText p) = "" ∨ jsTrim (payloadReplyText p) = "NO_REPLY" ∨
      jsEndsWith (jsTrim (payloadReplyText p)) "NO_REPLY" = true)
    (hmedia : payloadMediaUrl p = none) :
    (deliver aid e cid ph p).calls =
      (if ph = "" then [] else [CallEvent.delete ph e.deleteOk]) ∧
    (deliver aid e cid ph p).logs = [] := by
  have hskip : isSkipPayload p = true := by
    rcases htext with h | h | h <;> simp [isSkipPayload, hmedia, h]
  simp only [deliver, hskip, if_true]
  by_cases hph : ph = "" <;> simp [hph]

/-- C5 (witness): a concrete `NO_REPLY` payload with a pending placeholder
deletes it and nothing else. -/
theorem empty_reply_deletes_placeholder_sends_nothing_witness :
    (deliver "default" okEnv "oc_chat" "om_ph"
        (PayloadVal.obj (some "NO_REPLY") none none none)).calls =
      [CallEvent.delete "om_ph" true] ∧
    (deliver "default" okEnv "oc_chat" "om_ph"
        (PayloadVal.obj (some "NO_REPLY") none none none)).logs = [] := by
  have h := empty_reply_deletes_placeholder_sends_nothing "default" okEnv "oc_chat" "om_ph"
    (PayloadVal.obj (some "NO_REPLY") none none none)
    (Or.inr (Or.inl (by decide))) rfl
  simpa using h

/-- C6 (counterexample): the claim that every dispatch error deletes any
pending placeholder is false on the code when the error arrives while the
timer's `im.message.create` is still awaited: `onError` reads
`placeholderId` as `""` and issues no delete, yet the create then resolves
to `om_ph` — a created placeholder with no cleanup attempt at all. -/
theorem error_cleanup_missed_for_inflight_create :
    (handleIncomingMessage sampleData sampleCtx inFlightErrorEnv []).1.calls =
      [CallEvent.create "oc_chat" thinkingText (some "om_ph")] ∧
    createdPlaceholderIds
      (handleIncomingMessage sampleData sampleCtx inFlightErrorEnv []).1.calls = ["om_ph"] ∧
    attemptsOnPlaceholder "om_ph"
      (handleIncomingMessage sampleData sampleCtx inFlightErrorEnv []).1.calls = false := by
  decide

/-- C6 (amended): for a dispatch that ends in an error — reported through
`onError` or thrown by the dispatch promise — the handler logs the error
(dispatcher or dispatch log line, per account); it attempts a delete on any
placeholder it created provided the create had resolved before the error
callback ran (a create still in flight leaves the callbacks reading an empty
id, so no cleanup is attempted); when the delete succeeds no error escapes;
and whatever does escape `handleIncomingMessage` is caught and logged per
account by the registered `messageHandler`, which by construction always
resolves. -/
theorem dispatch_errors_cleaned_up_and_logged (d : EventData) (c : MessageHandlerContext)
    (e : DispatchEnv) (s : List String) (m : String)
    (h : e.outcome = DispatchOutcome.errors m ∨ e.outcome = DispatchOutcome.throws m) :
    ((handleIncomingMessage d c e s).1.dispatched = true →
      LogEvent.dispatcherError c.accountId m ∈ (handleIncomingMessage d c e s).1.logs ∨
      LogEvent.dispatchError c.accountId m ∈ (handleIncomingMessage d c e s).1.logs) ∧
    (e.timer ≠ TimerOutcome.firedCreateInFlight →
      ∀ p ∈ createdPlaceholderIds (handleIncomingMessage d c e s).1.calls,
        attemptsOnPlaceholder p (handleIncomingMessage d c e s).1.calls = true) ∧
    (e.deleteOk = true → (handleIncomingMessage d c e s).1.raised = none) ∧
    (∀ err, (handleIncomingMessage d c e s).1.raised = some err →
      LogEvent.handlerError c.accountId (handlerErrorText err) ∈ (messageHandler d c e s).1) := by
  refine ⟨?_, ?_, ?_, fun err herr => messageHandler_logs_raised d c e s err herr⟩ <;>
    rcases handleIncomingMessage_shape d c e s with h1 | h1 | ⟨cid, h1⟩ <;> rw [h1]
  · intro hdisp
    simp [emptyRun] at hdisp
  · intro hdisp
    simp [emptyRun] at hdisp
  · intro _
    rcases runDispatch_error_logged c.accountId e c.thinkingThresholdMs cid m h with hl | hl
    · exact Or.inl (List.mem_cons_of_mem _ hl)
    · exact Or.inr (List.mem_cons_of_mem _ hl)
  · intro _ p hp
    simp [emptyRun, createdPlaceholderIds] at hp
  · intro _ p hp
    simp [emptyRun, createdPlaceholderIds] at hp
  · exact fun hifl p hp =>
      runDispatch_attempts c.accountId e c.thinkingThresholdMs cid p hifl hp
  · intro _
    rfl
  · intro _
    rfl
  · intro hd
    exact runDispatch_raised_none c.accountId e c.thinkingThresholdMs cid hd

/-- C6 (witness): a concrete dispatcher error is logged and, the delete
succeeding, nothing escapes the handler. -/
theorem dispatch_errors_cleaned_up_and_logged_witness :
    (LogEvent.dispatcherError "default" "boom"
        ∈ (handleIncomingMessage sampleData sampleCtx errorEnv []).1.logs ∨
      LogEvent.dispatchError "default" "boom"
        ∈ (handleIncomingMessage sampleData sampleCtx errorEnv []).1.logs) ∧
    (handleIncomingMessage sampleData sampleCtx errorEnv []).1.raised = none :=
  ⟨(dispatch_errors_cleaned_up_and_logged sampleData sampleCtx errorEnv [] "boom"
      (Or.inl rfl)).1 (by decide),
   (dispatch_errors_cleaned_up_and_logged sampleData sampleCtx errorEnv [] "boom"
      (Or.inl rfl)).2.2.1 rfl⟩

/-- C7: a webhook request whose adapted handler rejects is logged; when the
response headers are unsent a 500 response with body "Internal Server
Error" is written, and when they were already sent nothing beyond the log
happens. -/
theorem webhook_rejection_logs_and_500_when_headers_unsent (aid err : String)
    (headersSent : Bool) :
    ResponseAction.logError aid err ∈ webhookRequestHandler aid (some err) headersSent ∧
    (ResponseAction.writeHead 500 "text/plain"
        ∈ webhookRequestHandler aid (some err) headersSent ↔ headersSent = false) ∧
    (ResponseAction.endBody "Internal Server Error"
        ∈ webhookRequestHandler aid (some err) headersSent ↔ headersSent = false) ∧
    (headersSent = true →
      webhookRequestHandler aid (some err) headersSent = [ResponseAction.logError aid err]) := by
  cases headersSent <;> simp [webhookRequestHandler]

/-- C7 (witness): with headers already sent, a concrete rejection only
logs. -/
theorem webhook_rejection_logs_and_500_when_headers_unsent_witness :
    webhookRequestHandler "default" (some "oops") true =
      [ResponseAction.logError "default" "oops"] :=
  (webhook_rejection_logs_and_500_when_headers_unsent "default" "oops" true).2.2.2 rfl

/-- C8: `startFeishuProvider` starts the webhook HTTP server exactly when
the account's `connectionMode` is `"webhook"`, and starts the WebSocket
client exactly otherwise — never both. -/
theorem connection_modes_mutually_exclusive (cfg : FeishuAccountConfig) :
    ((startFeishuProvider cfg).startsWebhookServer = true ↔
      cfg.connectionMode = some "webhook") ∧
    (startFeishuProvider cfg).startsWsClient =
      !(startFeishuProvider cfg).startsWebhookServer := by
  rcases hc : cfg.connectionMode with _ | m
  · simp [startFeishuProvider, hc]
  · by_cases hm : m = "webhook" <;> simp [startFeishuProvider, hc, hm]

/-- C8 (witness): the webhook configuration starts the webhook server. -/
theorem connection_modes_mutually_exclusive_witness :
    (startFeishuProvider webhookCfg).startsWebhookServer = true :=
  (connection_modes_mutually_exclusive webhookCfg).1.mpr rfl

/-- C9: both copies of the domain resolver map exactly the string "lark" to
`Lark.Domain.Lark` and everything else — including an absent value and
"feishu" — to `Lark.Domain.Feishu`, and they compute the same function. -/
theorem resolveLarkDomain_lark_iff_and_copies_agree (d : Option String) :
    (resolveLarkDomain d = LarkDomain.Lark ↔ d = some "lark") ∧
    (resolveLarkDomain d = LarkDomain.Feishu ↔ d ≠ some "lark") ∧
    providerResolveLarkDomain d = resolveLarkDomain d := by
  by_cases h : d = some "lark" <;>
    simp [resolveLarkDomain, providerResolveLarkDomain, h]

/-- C9 (witness): the resolver sends "lark" to the Lark domain. -/
theorem resolveLarkDomain_lark_iff_and_copies_agree_witness :
    resolveLarkDomain (some "lark") = LarkDomain.Lark :=
  (resolveLarkDomain_lark_iff_and_copies_agree (some "lark")).1.mpr rfl

/-- C10: with a non-positive `thinkingThresholdMs` no timer is scheduled and
no placeholder ever exists under any schedule: the run makes no create,
update or delete call, and a delivered non-skip reply goes directly through
a text send or media send. -/
theorem no_placeholder_when_threshold_nonpositive (d : EventData)
    (c : MessageHandlerContext) (e : DispatchEnv) (s : List String)
    (h : c.thinkingThresholdMs ≤ 0) :
    hasPlaceholderCall (handleIncomingMessage d c e s).1.calls = false ∧
    (∀ p, e.outcome = DispatchOutcome.delivers p → isSkipPayload p = false →
      (handleIncomingMessage d c e s).1.dispatched = true →
      hasSendCall (handleIncomingMessage d c e s).1.calls = true) := by
  rcases handleIncomingMessage_shape d c e s with hs | hs | ⟨cid, hs⟩ <;> rw [hs]
  · exact ⟨rfl, fun p _ _ hdisp => by simp [emptyRun] at hdisp⟩
  · exact ⟨rfl, fun p _ _ hdisp => by simp [emptyRun] at hdisp⟩
  · obtain ⟨h1, h2⟩ :=
      runDispatch_threshold_nonpositive c.accountId e c.thinkingThresholdMs cid h
    exact ⟨h1, fun p ho hskip _ => h2 p ho hskip⟩

/-- C10 (witness): at threshold 0, a concrete run makes no placeholder call
and sends its text reply directly. -/
theorem no_placeholder_when_threshold_nonpositive_witness :
    hasPlaceholderCall (handleIncomingMessage sampleData zeroThresholdCtx okEnv []).1.calls
        = false ∧
    hasSendCall (handleIncomingMessage sampleData zeroThresholdCtx okEnv []).1.calls = true :=
  ⟨(no_placeholder_when_threshold_nonpositive sampleData zeroThresholdCtx okEnv []
      (by decide)).1,
   (no_placeholder_when_threshold_nonpositive sampleData zeroThresholdCtx okEnv []
      (by decide)).2 (PayloadVal.obj (some "hello") none none none) rfl (by decide)
      (by decide)⟩
